import Mathlib

/-!
Shallow embedding of the WinStd handle-wrapper library
(`include/WinStd/Common.h`, `include/WinStd/COM.h`, `include/WinStd/ETW.h`).

Native handles are modelled by values of an arbitrary type with decidable
equality; pointer-valued handles are modelled by `Nat` addresses with `0`
standing for `NULL`.  The native release function (the virtual
`free_internal`, e.g. `Release`, `EventUnregister`, `ControlTrace`) and the
native duplication function (`duplicate_internal`) are modelled by event
traces: each wrapper operation returns, besides the updated wrapper state,
the ordered list of native calls it performs.
-/

namespace WinStd

/-- Native calls a wrapper operation can make on handles: `rel h` records a
release call (`free_internal` on handle `h`), `dup h` records a duplication
call (`duplicate_internal` on handle `h`). -/
inductive Ev (α : Type) where
  | rel (h : α)
  | dup (h : α)
deriving DecidableEq

/-- State of a `handle<T, INVAL>` wrapper (Common.h:1018-1275): the stored
handle `m_h`. -/
structure Handle (α : Type) where
  m_h : α
deriving DecidableEq

variable {α : Type} [DecidableEq α]

/-- Embeds `handle::handle()` (Common.h:1035-1037): stores `INVAL`. -/
def handleNew (INVAL : α) : Handle α := ⟨INVAL⟩

/-- Embeds `handle::handle(handle_type h)` (Common.h:1044-1046). -/
def handleInit (h : α) : Handle α := ⟨h⟩

/-- Embeds the move constructor `handle::handle(handle&&)`
(Common.h:1053-1058): `m_h = h.m_h; h.m_h = invalid;`.  Returns the pair
(new object, moved-from object); no native call is made. -/
def moveCtor (INVAL : α) (src : Handle α) : Handle α × Handle α :=
  (⟨src.m_h⟩, ⟨INVAL⟩)

/-- Embeds the move assignment `handle::operator=(handle&&)`
(Common.h:1083-1093).  `isSelf` models the `this != std::addressof(h)` guard;
when it is `true` the two wrappers are the same object and nothing happens.
Otherwise: `if (m_h != invalid) free_internal(); m_h = h.m_h; h.m_h = invalid;`.
Returns (destination after, source after, handles released in order). -/
def moveAssign (INVAL : α) (isSelf : Bool) (dst src : Handle α) :
    Handle α × Handle α × List α :=
  if isSelf then (dst, src, [])
  else
    let rels := if dst.m_h ≠ INVAL then [dst.m_h] else []
    (⟨src.m_h⟩, ⟨INVAL⟩, rels)

/-- Embeds `handle::attach` (Common.h:1237-1242):
`if (m_h != invalid) free_internal(); m_h = h;`.
Returns (wrapper after, handles released in order). -/
def attach (INVAL : α) (w : Handle α) (h : α) : Handle α × List α :=
  let rels := if w.m_h ≠ INVAL then [w.m_h] else []
  (⟨h⟩, rels)

/-- Embeds `handle::operator=(handle_type h)` (Common.h:1071-1075): forwards
to `attach(h)`. -/
def assignRaw (INVAL : α) (w : Handle α) (h : α) : Handle α × List α :=
  attach INVAL w h

/-- Embeds `handle::detach` (Common.h:1249-1254): returns the stored handle
and stores `invalid`; no native call. -/
def detach (INVAL : α) (w : Handle α) : α × Handle α :=
  (w.m_h, ⟨INVAL⟩)

/-- Embeds `handle::free` (Common.h:1259-1265):
`if (m_h != invalid) { free_internal(); m_h = invalid; }`.
Returns (wrapper after, handles released in order). -/
def free (INVAL : α) (w : Handle α) : Handle α × List α :=
  if w.m_h ≠ INVAL then (⟨INVAL⟩, [w.m_h]) else (w, [])

/-- Embeds the destructor pattern shared by `event_provider::~event_provider`
(ETW.h:501-505) and `event_session::~event_session` (ETW.h:762-766):
`if (m_h != invalid) free_internal();`.  Returns the handles released. -/
def handleDtor (INVAL : α) (w : Handle α) : List α :=
  if w.m_h ≠ INVAL then [w.m_h] else []

/-- Embeds `com_obj::~com_obj` (COM.h:84-88): `if (m_h) m_h->Release();`.
COM interface pointers are modelled as `Nat` addresses with `NULL = 0`.
Returns the pointers on which `Release` is called. -/
def comObjDtor (w : Handle Nat) : List Nat :=
  if w.m_h ≠ 0 then [w.m_h] else []

/-- Embeds the `dplhandle` copy assignment
`dplhandle::operator=(const dplhandle&)` (Common.h:1337-1355).  `dup` models
`duplicate_internal`; `isSelf` models the `this != std::addressof(h)` guard.
For distinct objects the code first duplicates the source handle, then (if the
destination held a valid handle) frees it, then stores the duplicate; when the
source is invalid it frees the destination handle (if valid) and stores
`invalid`.  Returns (destination after, source after, native calls in order). -/
def dplCopyAssign (INVAL : α) (dup : α → α) (isSelf : Bool) (dst src : Handle α) :
    Handle α × Handle α × List (Ev α) :=
  if isSelf then (dst, src, [])
  else if src.m_h ≠ INVAL then
    let hNew := dup src.m_h
    let evs := [Ev.dup src.m_h] ++ (if dst.m_h ≠ INVAL then [Ev.rel dst.m_h] else [])
    (⟨hNew⟩, src, evs)
  else
    (⟨INVAL⟩, src, if dst.m_h ≠ INVAL then [Ev.rel dst.m_h] else [])

/-- Embeds `dplhandle::duplicate` (Common.h:1374-1377):
`return m_h != invalid ? duplicate_internal(m_h) : invalid;`.
Returns (result handle, native calls). -/
def dplDuplicate (INVAL : α) (dup : α → α) (w : Handle α) : α × List (Ev α) :=
  if w.m_h ≠ INVAL then (dup w.m_h, [Ev.dup w.m_h]) else (INVAL, [])

/-- Embeds `dplhandle::attach_duplicated` (Common.h:1384-1390):
`if (m_h != invalid) free_internal(); m_h = h != invalid ? duplicate_internal(h) : invalid;`. -/
def attachDuplicated (INVAL : α) (dup : α → α) (w : Handle α) (h : α) :
    Handle α × List (Ev α) :=
  let evs := if w.m_h ≠ INVAL then [Ev.rel w.m_h] else []
  if h ≠ INVAL then (⟨dup h⟩, evs ++ [Ev.dup h]) else (⟨INVAL⟩, evs)

/-- C2: for every handle wrapper, the native release function is invoked only
on a valid handle, never on the invalid sentinel: `free()` on a wrapper whose
stored handle equals the sentinel performs no release call and leaves the
wrapper unchanged, `free()` on a wrapper holding a valid handle calls the
release function exactly once on that handle (and resets the wrapper to the
sentinel); the destructors of `event_provider`/`event_session` and of
`com_obj` behave the same way, and no release call ever receives the
sentinel. -/
theorem C2_release_only_valid_handles (INVAL : α) (w : Handle α) (p : Handle Nat) :
    (w.m_h = INVAL → free INVAL w = (w, []) ∧ handleDtor INVAL w = []) ∧
    (w.m_h ≠ INVAL → free INVAL w = (⟨INVAL⟩, [w.m_h]) ∧ handleDtor INVAL w = [w.m_h]) ∧
    INVAL ∉ (free INVAL w).2 ∧ INVAL ∉ handleDtor INVAL w ∧
    (p.m_h = 0 → comObjDtor p = []) ∧
    (p.m_h ≠ 0 → comObjDtor p = [p.m_h]) ∧
    (0 : Nat) ∉ comObjDtor p := by
  unfold free handleDtor comObjDtor
  by_cases hw : w.m_h = INVAL <;> by_cases hp : p.m_h = 0 <;>
    simp [hw, hp] <;> first | exact fun h => (hw h.symm).elim | exact ⟨fun h => (hw h.symm).elim, fun h => (hp h.symm).elim⟩ | exact fun h => (hp h.symm).elim

/-- Witness for C2 at a concrete input. -/
theorem C2_release_only_valid_handles_witness :
    free (0 : Nat) ⟨7⟩ = (⟨0⟩, [7]) ∧ handleDtor (0 : Nat) ⟨7⟩ = [7] :=
  (C2_release_only_valid_handles (0 : Nat) ⟨7⟩ ⟨7⟩).2.1 (by decide)

/-- C3: every operation that installs a new handle into a wrapper already
holding a valid handle (`attach`, assignment from a raw handle, move
assignment between distinct objects) first releases the previously owned
handle exactly once before storing the new one; when the wrapper held the
sentinel, no release call is made.  The release trace accounts for the old
handle exactly, so no handle is leaked or double-freed. -/
theorem C3_install_releases_old_exactly_once (INVAL h : α) (w dst src : Handle α) :
    ((attach INVAL w h).1 = ⟨h⟩ ∧
      (w.m_h ≠ INVAL → (attach INVAL w h).2 = [w.m_h]) ∧
      (w.m_h = INVAL → (attach INVAL w h).2 = [])) ∧
    (assignRaw INVAL w h = attach INVAL w h) ∧
    ((moveAssign INVAL false dst src).1 = ⟨src.m_h⟩ ∧
      (dst.m_h ≠ INVAL → (moveAssign INVAL false dst src).2.2 = [dst.m_h]) ∧
      (dst.m_h = INVAL → (moveAssign INVAL false dst src).2.2 = [])) := by
  unfold attach assignRaw moveAssign
  by_cases hw : w.m_h = INVAL <;> by_cases hd : dst.m_h = INVAL <;> simp [hw, hd, attach]

/-- Witness for C3 at a concrete input. -/
theorem C3_install_releases_old_exactly_once_witness :
    (attach (0 : Nat) ⟨7⟩ 9).2 = [7] ∧ (moveAssign (0 : Nat) false ⟨3⟩ ⟨5⟩).2.2 = [3] :=
  ⟨((C3_install_releases_old_exactly_once (0 : Nat) 9 ⟨7⟩ ⟨3⟩ ⟨5⟩).1.2.1 (by decide)),
   ((C3_install_releases_old_exactly_once (0 : Nat) 9 ⟨7⟩ ⟨3⟩ ⟨5⟩).2.2.2.1 (by decide))⟩

/-- C4: move construction and move assignment transfer the handle: afterwards
the destination holds the handle value the source held before the move, and
the source holds the invalid sentinel.  (Copy construction and copy assignment
of plain `handle` wrappers are declared private in the source —
Common.h:1060-1063 and the `WINSTD_NONCOPYABLE` macro — so the model defines
no copy operation for plain handles: the only ownership transfer is the move.) -/
theorem C4_move_transfers_handle (INVAL : α) (src dst : Handle α) :
    moveCtor INVAL src = (⟨src.m_h⟩, ⟨INVAL⟩) ∧
    (moveAssign INVAL false dst src).1 = ⟨src.m_h⟩ ∧
    (moveAssign INVAL false dst src).2.1 = ⟨INVAL⟩ := by
  unfold moveCtor moveAssign
  simp

/-- C5: `dplhandle` copy assignment duplicates the source handle via
`duplicate_internal` before releasing the destination handle (the trace lists
the duplication first), leaves the source unchanged, stores the sentinel when
the source is invalid, and is a no-op on self-assignment; `duplicate()`
returns a duplicated handle when the stored handle is valid and the sentinel
otherwise. -/
theorem C5_dplhandle_copy_duplicates (INVAL : α) (dup : α → α) (dst src w : Handle α) :
    (src.m_h ≠ INVAL → dst.m_h ≠ INVAL →
      dplCopyAssign INVAL dup false dst src =
        (⟨dup src.m_h⟩, src, [Ev.dup src.m_h, Ev.rel dst.m_h])) ∧
    (src.m_h ≠ INVAL → dst.m_h = INVAL →
      dplCopyAssign INVAL dup false dst src = (⟨dup src.m_h⟩, src, [Ev.dup src.m_h])) ∧
    (src.m_h = INVAL →
      (dplCopyAssign INVAL dup false dst src).1 = ⟨INVAL⟩ ∧
      (dplCopyAssign INVAL dup false dst src).2.1 = src) ∧
    dplCopyAssign INVAL dup true dst dst = (dst, dst, []) ∧
    (w.m_h ≠ INVAL → dplDuplicate INVAL dup w = (dup w.m_h, [Ev.dup w.m_h])) ∧
    (w.m_h = INVAL → dplDuplicate INVAL dup w = (INVAL, [])) := by
  unfold dplCopyAssign dplDuplicate
  by_cases hs : src.m_h = INVAL <;> by_cases hd : dst.m_h = INVAL <;>
    by_cases hw : w.m_h = INVAL <;> simp [hs, hd, hw]

/-- Witness for C5 at a concrete input. -/
theorem C5_dplhandle_copy_duplicates_witness :
    dplCopyAssign (0 : Nat) Nat.succ false ⟨3⟩ ⟨5⟩ = (⟨6⟩, ⟨5⟩, [Ev.dup 5, Ev.rel 3]) :=
  (C5_dplhandle_copy_duplicates (0 : Nat) Nat.succ ⟨3⟩ ⟨5⟩ ⟨1⟩).1 (by decide) (by decide)

/-- Embeds the Windows `SUCCEEDED` macro: `(((HRESULT)(hr)) >= 0)`, with
`HRESULT` a 32-bit signed integer modelled as `Int`. -/
def SUCCEEDED (hr : Int) : Bool := 0 ≤ hr

/-- Embeds the C-style cast of a pointer to `HRESULT` (a 32-bit signed
integer): the address is truncated to its low 32 bits and reinterpreted as
two's complement. -/
def ptrToHRESULT (p : Nat) : Int :=
  let r : Nat := p % 2 ^ 32
  if r < 2 ^ 31 then (r : Int) else (r : Int) - 2 ^ 32

/-- Embeds the Windows error constant `E_NOINTERFACE` (`0x80004002`) as a
32-bit signed `HRESULT`. -/
def E_NOINTERFACE : Int := 0x80004002 - 2 ^ 32

/-- Embeds `com_obj::create` (COM.h:96-103).  `CoCreateInstance` is modelled
by its outputs: `hr`, the returned `HRESULT`, and `h`, the interface pointer
written through the last argument (per the COM contract `h` is `NULL` when
the call fails).  The source reads

`HRESULT hr = CoCreateInstance(...); if (SUCCEEDED(h)) attach(h); return hr;`

— note that the macro is applied to the pointer `h`, not to `hr`.  Returns
(returned HRESULT, wrapper after, pointers released in order). -/
def comObjCreate (w : Handle Nat) (hr : Int) (h : Nat) : Int × Handle Nat × List Nat :=
  if SUCCEEDED (ptrToHRESULT h) then
    let r := attach 0 w h
    (hr, r.1, r.2)
  else (hr, w, [])

/-- Embeds the Windows constant `ERROR_SUCCESS`. -/
def ERROR_SUCCESS : Nat := 0

/-- Embeds `event_provider::create` (ETW.h:516-523).  `EventRegister` is
modelled by its outputs `ulRes` (returned error code) and `h` (the
registration handle it writes).  Returns (returned code, wrapper after,
handles released in order). -/
def eventProviderCreate (w : Handle Nat) (ulRes : Nat) (h : Nat) :
    Nat × Handle Nat × List Nat :=
  if ulRes = ERROR_SUCCESS then
    let r := attach 0 w h
    (ulRes, r.1, r.2)
  else (ulRes, w, [])

/-- State of an `event_session` (ETW.h:721-898): the trace handle and the
owned copy of the `EVENT_TRACE_PROPERTIES` block (`m_prop`), modelled as the
copied bytes (`none` = null pointer). -/
structure EventSession where
  m_h : Nat
  m_prop : Option (List Nat)
deriving DecidableEq

/-- Embeds `event_session::create` (ETW.h:826-835).  The code copies
`Properties` into a freshly allocated block, calls `StartTrace` — modelled by
its outputs `ulRes` (returned code) and `h` (the session handle it writes) —
and on `ERROR_SUCCESS` attaches the new handle and the property block
(releasing the previously held handle, ETW.h:811-815); on failure the
temporary block is dropped and the session is unchanged.  Returns (returned
code, session after, handles released in order). -/
def eventSessionCreate (s : EventSession) (props : List Nat) (ulRes : Nat) (h : Nat) :
    Nat × EventSession × List Nat :=
  if ulRes = ERROR_SUCCESS then
    let rels := if s.m_h ≠ 0 then [s.m_h] else []
    (ulRes, ⟨h, some props⟩, rels)
  else (ulRes, s, [])

/-- C1, failing input: `com_obj::create` tests `SUCCEEDED(h)` — the output
pointer cast to `HRESULT` — instead of `SUCCEEDED(hr)`.  When
`CoCreateInstance` fails with `E_NOINTERFACE` it writes `h = NULL`, and
`SUCCEEDED((HRESULT)NULL)` is true, so the wrapper holding pointer `5`
releases it and attaches `NULL`: the stored handle changes on a failed native
call, contradicting the claim (which the other two create methods, embedded
below, do satisfy). -/
theorem C1_comObjCreate_failing_input :
    SUCCEEDED E_NOINTERFACE = false ∧
    comObjCreate ⟨5⟩ E_NOINTERFACE 0 = (E_NOINTERFACE, ⟨0⟩, [5]) ∧
    eventProviderCreate ⟨5⟩ 8 0 = (8, ⟨5⟩, []) ∧
    eventSessionCreate ⟨5, none⟩ [1] 8 0 = (8, ⟨5, none⟩, []) := by
  decide

/-- Supporting fact (not a claim theorem): `event_provider::create` and
`event_session::create` attach the newly acquired handle if and only if the
native call returned `ERROR_SUCCESS`, return exactly the native result code,
and leave the stored handle unchanged on failure. -/
theorem eventCreate_attach_iff_success (w : Handle Nat) (s : EventSession)
    (props : List Nat) (ulRes h : Nat) :
    (eventProviderCreate w ulRes h).1 = ulRes ∧
    (eventSessionCreate s props ulRes h).1 = ulRes ∧
    (ulRes = ERROR_SUCCESS → (eventProviderCreate w ulRes h).2.1 = ⟨h⟩ ∧
      (eventSessionCreate s props ulRes h).2.1.m_h = h) ∧
    (ulRes ≠ ERROR_SUCCESS → (eventProviderCreate w ulRes h).2.1 = w ∧
      (eventSessionCreate s props ulRes h).2.1 = s) := by
  unfold eventProviderCreate eventSessionCreate attach
  by_cases hu : ulRes = ERROR_SUCCESS <;> simp [hu]

/-- State of an `EVENT_DATA_DESCRIPTOR` (and of the `event_data` wrapper,
ETW.h:117-286): `Ptr` (a 64-bit address), `Size` and `Reserved` (32-bit). -/
structure EDD where
  Ptr : Nat
  Size : Nat
  Reserved : Nat
deriving DecidableEq

/-- Embeds `winstd::blank_event_data` (ETW.h:291), built by the default
`event_data` constructor (ETW.h:123-128): `Ptr = 0`, `Size = 0`,
`Reserved = (ULONG)-1`. -/
def blank_event_data : EDD := ⟨0, 0, 2 ^ 32 - 1⟩

/-- Embeds the terminator test repeated in `event_provider::write`
(ETW.h:571-573, 585-587, 596-598, 631-633, 641-643): field-wise comparison
with `blank_event_data`. -/
def isBlank (p : EDD) : Bool :=
  p.Ptr = blank_event_data.Ptr && p.Size = blank_event_data.Size &&
    p.Reserved = blank_event_data.Reserved

/-- Embeds the Windows SDK constant `MAX_EVENT_DATA_DESCRIPTORS` (128). -/
def MAX_EVENT_DATA_DESCRIPTORS : Nat := 128

/-- Embeds the variadic `event_provider::write(EventDescriptor, param1, ...)`
(ETW.h:566-607).  `args` models the `va_list` following `param1`; the claim
presumes it contains a `blank_event_data` terminator.  When `param1` is the
terminator the code calls `EventWrite(m_h, d, 0, NULL)`.  Otherwise the first
loop counts descriptors starting from `param_count = 1`, stopping at the
terminator or at `MAX_EVENT_DATA_DESCRIPTORS`, so `param_count` ends as
`min (1 + k) 128` where `k` is the number of `va_list` entries before the
first terminator; the second loop then pushes `param1` and every `va_list`
entry up to the first terminator.  Returns the pair passed to `EventWrite`:
(UserDataCount, UserData array — `none` models the `NULL` pointer). -/
def writeV (param1 : EDD) (args : List EDD) : Nat × Option (List EDD) :=
  if isBlank param1 then (0, none)
  else
    let pre := args.takeWhile (fun p => !isBlank p)
    (min (1 + pre.length) MAX_EVENT_DATA_DESCRIPTORS, some (param1 :: pre))

/-- Embeds `event_provider::write(EventDescriptor, va_list)` (ETW.h:620-651):
the count loop starts at `param_count = 0`, so the count passed to
`EventWrite` is `min k 128` and the array holds the `k` descriptors before
the first terminator. -/
def writeVa (args : List EDD) : Nat × List EDD :=
  let pre := args.takeWhile (fun p => !isBlank p)
  (min pre.length MAX_EVENT_DATA_DESCRIPTORS, pre)

/-- Example descriptor used in the C6 counterexample: a non-terminator
descriptor pointing at address 1 with size 4. -/
def dEx : EDD := ⟨1, 4, 0⟩

set_option maxRecDepth 8000 in
/-- C6, counterexample: with 129 descriptors preceding the terminator
(`param1 = dEx` followed by 128 copies of `dEx` and then the terminator) the
count reported to `EventWrite` is capped at `MAX_EVENT_DATA_DESCRIPTORS`
(128) while the forwarded array holds all 129 descriptors, so the reported
parameter count does not equal the number of forwarded descriptors. -/
theorem C6_count_cap_counterexample :
    (writeV dEx (List.replicate 128 dEx ++ [blank_event_data])).1 = 128 ∧
    ((writeV dEx (List.replicate 128 dEx ++ [blank_event_data])).2.map
      List.length) = some 129 := by
  decide

/-- C6, amended: when at most `MAX_EVENT_DATA_DESCRIPTORS` (128) descriptors
precede the first terminator, the variadic `write` forwards to `EventWrite`
exactly the descriptors preceding the first terminator, in order, with the
reported count equal to their number; when the first parameter is itself the
terminator, `EventWrite` receives zero parameters and a `NULL` array.  (When
more than 128 precede the terminator, the count is capped at 128 while the
array still holds all of them.) -/
theorem C6_writeV_forwards_until_terminator (param1 : EDD) (args : List EDD)
    (hterm : blank_event_data ∈ param1 :: args)
    (hlen : ((param1 :: args).takeWhile (fun p => !isBlank p)).length ≤
      MAX_EVENT_DATA_DESCRIPTORS) :
    (isBlank param1 = true → writeV param1 args = (0, none)) ∧
    (isBlank param1 = false →
      (writeV param1 args).2 =
        some ((param1 :: args).takeWhile (fun p => !isBlank p)) ∧
      (writeV param1 args).1 =
        ((param1 :: args).takeWhile (fun p => !isBlank p)).length) := by
  constructor
  · intro hb
    unfold writeV
    simp [hb]
  · intro hb
    have htw : (param1 :: args).takeWhile (fun p => !isBlank p) =
        param1 :: args.takeWhile (fun p => !isBlank p) := by
      simp [List.takeWhile, hb]
    rw [htw] at hlen ⊢
    unfold writeV
    simp only [hb, Bool.false_eq_true, if_false, List.length_cons]
    refine ⟨by simp, ?_⟩
    show min (1 + (args.takeWhile (fun p => !isBlank p)).length)
      MAX_EVENT_DATA_DESCRIPTORS = (args.takeWhile (fun p => !isBlank p)).length + 1
    simp only [MAX_EVENT_DATA_DESCRIPTORS]
    simp only [List.length_cons, MAX_EVENT_DATA_DESCRIPTORS] at hlen
    omega

/-- Witness for C6 at a concrete input. -/
theorem C6_writeV_forwards_until_terminator_witness :
    (writeV dEx [dEx, blank_event_data]).1 = 2 ∧
    (writeV dEx [dEx, blank_event_data]).2 = some [dEx, dEx] := by
  have h := (C6_writeV_forwards_until_terminator dEx [dEx, blank_event_data]
    (by decide) (by decide)).2 (by decide)
  refine ⟨?_, ?_⟩
  · rw [h.2]; decide
  · rw [h.1]; decide

/-! VARTYPE constants from the OLE Automation headers. -/

/-- Embeds the `VT_EMPTY` vartype constant. -/
def VT_EMPTY : Nat := 0
/-- Embeds the `VT_I2` vartype constant. -/
def VT_I2 : Nat := 2
/-- Embeds the `VT_I4` vartype constant. -/
def VT_I4 : Nat := 3
/-- Embeds the `VT_R4` vartype constant. -/
def VT_R4 : Nat := 4
/-- Embeds the `VT_R8` vartype constant. -/
def VT_R8 : Nat := 5
/-- Embeds the `VT_CY` vartype constant. -/
def VT_CY : Nat := 6
/-- Embeds the `VT_DATE` vartype constant. -/
def VT_DATE : Nat := 7
/-- Embeds the `VT_BSTR` vartype constant. -/
def VT_BSTR : Nat := 8
/-- Embeds the `VT_DISPATCH` vartype constant. -/
def VT_DISPATCH : Nat := 9
/-- Embeds the `VT_ERROR` vartype constant. -/
def VT_ERROR : Nat := 10
/-- Embeds the `VT_BOOL` vartype constant. -/
def VT_BOOL : Nat := 11
/-- Embeds the `VT_UNKNOWN` vartype constant. -/
def VT_UNKNOWN : Nat := 13
/-- Embeds the `VT_I1` vartype constant. -/
def VT_I1 : Nat := 16
/-- Embeds the `VT_UI1` vartype constant. -/
def VT_UI1 : Nat := 17
/-- Embeds the `VT_UI2` vartype constant. -/
def VT_UI2 : Nat := 18
/-- Embeds the `VT_UI4` vartype constant. -/
def VT_UI4 : Nat := 19
/-- Embeds the `VT_I8` vartype constant. -/
def VT_I8 : Nat := 20
/-- Embeds the `VT_UI8` vartype constant. -/
def VT_UI8 : Nat := 21
/-- Embeds the `VT_INT` vartype constant. -/
def VT_INT : Nat := 22
/-- Embeds the `VT_UINT` vartype constant. -/
def VT_UINT : Nat := 23
/-- Embeds the `VT_ARRAY` vartype flag (`0x2000`, bit 13). -/
def VT_ARRAY : Nat := 0x2000
/-- Embeds the `VT_BYREF` vartype flag (`0x4000`). -/
def VT_BYREF : Nat := 0x4000
/-- Embeds `VARIANT_TRUE` (the 16-bit value `-1`). -/
def VARIANT_TRUE : Int := -1
/-- Embeds `VARIANT_FALSE`. -/
def VARIANT_FALSE : Int := 0

/-- Names the `VARIANT` union member that an operation writes, together with
the written value.  Scalar payloads are the stored values (`Int` for signed,
`Nat` for unsigned fields); `fltVal`/`dblVal` carry the floating-point bit
pattern uninterpreted; pointer-valued members carry a `Nat` address.
`vacant` means no union member has been written (the `VariantInit` state). -/
inductive VMember where
  | vacant
  | boolVal (v : Int)
  | cVal (v : Int)
  | bVal (v : Nat)
  | iVal (v : Int)
  | uiVal (v : Nat)
  | intVal (v : Int)
  | uintVal (v : Nat)
  | lVal (v : Int)
  | ulVal (v : Nat)
  | fltVal (bits : Nat)
  | dblVal (bits : Nat)
  | llVal (v : Int)
  | ullVal (v : Nat)
  | cyVal (hi : Int) (lo : Nat)
  | bstrVal (p : Nat)
  | pdispVal (p : Nat)
  | punkVal (p : Nat)
  | parray (p : Nat)
  | pbVal (p : Nat)
  | piVal (p : Nat)
  | puiVal (p : Nat)
  | pintVal (p : Nat)
  | puintVal (p : Nat)
  | plVal (p : Nat)
  | pulVal (p : Nat)
  | pllVal (p : Nat)
  | pullVal (p : Nat)
  | pfltVal (p : Nat)
  | pdblVal (p : Nat)
deriving DecidableEq

/-- State of a `VARIANT` (and of the `winstd::variant` wrapper, COM.h:213-913):
the `vt` tag and the last-written union member. -/
structure Variant where
  vt : Nat
  mem : VMember
deriving DecidableEq

/-- Decides whether a `vt` tag matches the union member that was written,
following the OLE Automation `VARIANT` union layout.  Aliasing within the
union is honoured: `intVal` and `lVal` name the same 32-bit slot (so `VT_I4`
pairs with either, `VT_INT` with `intVal`, and `VT_ERROR` with `lVal`, which
aliases `scode`), `uintVal`/`ulVal` likewise, and `VT_DATE` stores a double
in the slot `dblVal` aliases (`date`).  An array tag is any `vt` with the
`VT_ARRAY` flag (bit 13) set, paired with `parray`. -/
def tagMatches : Nat → VMember → Bool
  | vt, .vacant => vt == VT_EMPTY
  | vt, .boolVal _ => vt == VT_BOOL
  | vt, .cVal _ => vt == VT_I1
  | vt, .bVal _ => vt == VT_UI1
  | vt, .iVal _ => vt == VT_I2
  | vt, .uiVal _ => vt == VT_UI2
  | vt, .intVal _ => vt == VT_I4 || vt == VT_INT
  | vt, .uintVal _ => vt == VT_UI4 || vt == VT_UINT
  | vt, .lVal _ => vt == VT_I4 || vt == VT_ERROR
  | vt, .ulVal _ => vt == VT_UI4
  | vt, .fltVal _ => vt == VT_R4
  | vt, .dblVal _ => vt == VT_R8 || vt == VT_DATE
  | vt, .llVal _ => vt == VT_I8
  | vt, .ullVal _ => vt == VT_UI8
  | vt, .cyVal _ _ => vt == VT_CY
  | vt, .bstrVal _ => vt == VT_BSTR
  | vt, .pdispVal _ => vt == VT_DISPATCH
  | vt, .punkVal _ => vt == VT_UNKNOWN
  | vt, .parray _ => vt.testBit 13
  | vt, .pbVal _ => vt == VT_UI1.lor VT_BYREF
  | vt, .piVal _ => vt == VT_I2.lor VT_BYREF
  | vt, .puiVal _ => vt == VT_UI2.lor VT_BYREF
  | vt, .pintVal _ => vt == VT_I4.lor VT_BYREF
  | vt, .puintVal _ => vt == VT_UI4.lor VT_BYREF
  | vt, .plVal _ => vt == VT_I4.lor VT_BYREF
  | vt, .pulVal _ => vt == VT_UI4.lor VT_BYREF
  | vt, .pllVal _ => vt == VT_I8.lor VT_BYREF
  | vt, .pullVal _ => vt == VT_UI8.lor VT_BYREF
  | vt, .pfltVal _ => vt == VT_R4.lor VT_BYREF
  | vt, .pdblVal _ => vt == VT_R8.lor VT_BYREF

/-- Models the OLE `VariantInit`: sets `vt = VT_EMPTY`, nothing written. -/
def variantInit : Variant := ⟨VT_EMPTY, VMember.vacant⟩

/-- Models the OLE `VariantClear`: releases the held resource (if any) and
leaves the variant empty (`vt = VT_EMPTY`). -/
def variantClear (_v : Variant) : Variant := ⟨VT_EMPTY, VMember.vacant⟩

/-- Embeds the assignment pattern shared by the scalar and by-reference
`variant::operator=` overloads (COM.h:463-823):
`if (vt != TAG) { VariantClear(this); vt = TAG; } member = value;`,
instantiated below per overload with its tag and written member. -/
def variantCondAssign (v : Variant) (tag : Nat) (m : VMember) : Variant :=
  let v1 := if v.vt ≠ tag then { variantClear v with vt := tag } else v
  { v1 with mem := m }

/-- Embeds `variant::variant(bool)` (COM.h:245-249). -/
def variantFromBool (b : Bool) : Variant :=
  ⟨VT_BOOL, VMember.boolVal (if b then VARIANT_TRUE else VARIANT_FALSE)⟩
/-- Embeds `variant::variant(char)` (COM.h:254-258). -/
def variantFromChar (c : Int) : Variant := ⟨VT_I1, VMember.cVal c⟩
/-- Embeds `variant::variant(unsigned char)` (COM.h:263-267). -/
def variantFromByte (n : Nat) : Variant := ⟨VT_UI1, VMember.bVal n⟩
/-- Embeds `variant::variant(short)` (COM.h:272-276). -/
def variantFromShort (n : Int) : Variant := ⟨VT_I2, VMember.iVal n⟩
/-- Embeds `variant::variant(unsigned short)` (COM.h:281-285). -/
def variantFromUShort (n : Nat) : Variant := ⟨VT_UI2, VMember.uiVal n⟩
/-- Embeds `variant::variant(int, VARTYPE)` (COM.h:290-295); the source
asserts `vtSrc == VT_I4 || vtSrc == VT_INT`. -/
def variantFromInt (n : Int) (vtSrc : Nat) : Variant := ⟨vtSrc, VMember.intVal n⟩
/-- Embeds `variant::variant(unsigned int, VARTYPE)` (COM.h:300-305); the
source asserts `vtSrc == VT_UI4 || vtSrc == VT_UINT`. -/
def variantFromUInt (n : Nat) (vtSrc : Nat) : Variant := ⟨vtSrc, VMember.uintVal n⟩
/-- Embeds `variant::variant(long, VARTYPE)` (COM.h:310-315); the source
asserts `vtSrc == VT_I4 || vtSrc == VT_ERROR`. -/
def variantFromLong (n : Int) (vtSrc : Nat) : Variant := ⟨vtSrc, VMember.lVal n⟩
/-- Embeds `variant::variant(unsigned long)` (COM.h:320-324). -/
def variantFromULong (n : Nat) : Variant := ⟨VT_UI4, VMember.ulVal n⟩
/-- Embeds `variant::variant(float)` (COM.h:329-333). -/
def variantFromFloat (bits : Nat) : Variant := ⟨VT_R4, VMember.fltVal bits⟩
/-- Embeds `variant::variant(double, VARTYPE)` (COM.h:338-343); the source
asserts `vtSrc == VT_R8 || vtSrc == VT_DATE`. -/
def variantFromDouble (bits : Nat) (vtSrc : Nat) : Variant := ⟨vtSrc, VMember.dblVal bits⟩
/-- Embeds `variant::variant(long long)` (COM.h:348-352). -/
def variantFromLLong (n : Int) : Variant := ⟨VT_I8, VMember.llVal n⟩
/-- Embeds `variant::variant(unsigned long long)` (COM.h:357-361). -/
def variantFromULLong (n : Nat) : Variant := ⟨VT_UI8, VMember.ullVal n⟩
/-- Embeds `variant::variant(CY)` (COM.h:366-371). -/
def variantFromCY (hi : Int) (lo : Nat) : Variant := ⟨VT_CY, VMember.cyVal hi lo⟩
/-- Embeds `variant::variant(IDispatch*)` (COM.h:394-401); the `AddRef` call
does not affect the tag or member. -/
def variantFromDispatch (p : Nat) : Variant := ⟨VT_DISPATCH, VMember.pdispVal p⟩
/-- Embeds `variant::variant(IUnknown*)` (COM.h:406-413). -/
def variantFromUnknown (p : Nat) : Variant := ⟨VT_UNKNOWN, VMember.punkVal p⟩

/-- Embeds `variant::operator=(LPCOLESTR)` (COM.h:648-654):
`VariantClear(this); vt = VT_BSTR; bstrVal = SysAllocString(lpszSrc);`.
`a` is the address returned by `SysAllocString`. -/
def variantAssignOleStr (v : Variant) (a : Nat) : Variant :=
  { variantClear v with vt := VT_BSTR, mem := VMember.bstrVal a }

/-- Embeds `variant::variant(LPCOLESTR)` (COM.h:376-380): sets `vt = VT_EMPTY`
then forwards to the OLE-string assignment (the `variant(BSTR)` constructor,
COM.h:385-389, takes the same path). -/
def variantFromOleStr (a : Nat) : Variant :=
  variantAssignOleStr ⟨VT_EMPTY, VMember.vacant⟩ a

/-- Embeds `variant::operator=(IDispatch*)` (COM.h:659-667). -/
def variantAssignDispatch (v : Variant) (p : Nat) : Variant :=
  { variantClear v with vt := VT_DISPATCH, mem := VMember.pdispVal p }

/-- Embeds `variant::operator=(IUnknown*)` (COM.h:672-680). -/
def variantAssignUnknown (v : Variant) (p : Nat) : Variant :=
  { variantClear v with vt := VT_UNKNOWN, mem := VMember.punkVal p }

/-- Embeds the success path of `variant::operator=(const SAFEARRAY*)`
(COM.h:828-843) and of `variant::variant(const SAFEARRAY*)` (COM.h:418-430):
`SafeArrayGetVartype` yields `vtBase`, then `vt |= VT_ARRAY` and
`parray = pCopy`.  The failure path of both is `assert(0)`. -/
def variantAssignSafeArray (v : Variant) (vtBase : Nat) (pCopy : Nat) : Variant :=
  { variantClear v with vt := vtBase.lor VT_ARRAY, mem := VMember.parray pCopy }

/-- Embeds `variant::operator=(bool)` (COM.h:463-471). -/
def variantAssignBool (v : Variant) (b : Bool) : Variant :=
  variantCondAssign v VT_BOOL (VMember.boolVal (if b then VARIANT_TRUE else VARIANT_FALSE))
/-- Embeds `variant::operator=(char)` (COM.h:476-484). -/
def variantAssignChar (v : Variant) (c : Int) : Variant :=
  variantCondAssign v VT_I1 (VMember.cVal c)
/-- Embeds `variant::operator=(unsigned char)` (COM.h:489-497). -/
def variantAssignByte (v : Variant) (n : Nat) : Variant :=
  variantCondAssign v VT_UI1 (VMember.bVal n)
/-- Embeds `variant::operator=(short)` (COM.h:502-510). -/
def variantAssignShort (v : Variant) (n : Int) : Variant :=
  variantCondAssign v VT_I2 (VMember.iVal n)
/-- Embeds `variant::operator=(unsigned short)` (COM.h:515-523). -/
def variantAssignUShort (v : Variant) (n : Nat) : Variant :=
  variantCondAssign v VT_UI2 (VMember.uiVal n)
/-- Embeds `variant::operator=(int)` (COM.h:528-536). -/
def variantAssignInt (v : Variant) (n : Int) : Variant :=
  variantCondAssign v VT_I4 (VMember.intVal n)
/-- Embeds `variant::operator=(unsigned int)` (COM.h:541-549). -/
def variantAssignUInt (v : Variant) (n : Nat) : Variant :=
  variantCondAssign v VT_UI4 (VMember.uintVal n)
/-- Embeds `variant::operator=(long)` (COM.h:554-562). -/
def variantAssignLong (v : Variant) (n : Int) : Variant :=
  variantCondAssign v VT_I4 (VMember.lVal n)
/-- Embeds `variant::operator=(unsigned long)` (COM.h:567-575). -/
def variantAssignULong (v : Variant) (n : Nat) : Variant :=
  variantCondAssign v VT_UI4 (VMember.ulVal n)
/-- Embeds `variant::operator=(long long)` (COM.h:581-589). -/
def variantAssignLLong (v : Variant) (n : Int) : Variant :=
  variantCondAssign v VT_I8 (VMember.llVal n)
/-- Embeds `variant::operator=(unsigned long long)` (COM.h:594-603). -/
def variantAssignULLong (v : Variant) (n : Nat) : Variant :=
  variantCondAssign v VT_UI8 (VMember.ullVal n)
/-- Embeds `variant::operator=(float)` (COM.h:608-616). -/
def variantAssignFloat (v : Variant) (bits : Nat) : Variant :=
  variantCondAssign v VT_R4 (VMember.fltVal bits)
/-- Embeds `variant::operator=(double)` (COM.h:621-629). -/
def variantAssignDouble (v : Variant) (bits : Nat) : Variant :=
  variantCondAssign v VT_R8 (VMember.dblVal bits)
/-- Embeds `variant::operator=(CY)` (COM.h:634-643). -/
def variantAssignCY (v : Variant) (hi : Int) (lo : Nat) : Variant :=
  variantCondAssign v VT_CY (VMember.cyVal hi lo)
/-- Embeds `variant::operator=(unsigned char*)` (COM.h:685-693). -/
def variantAssignByrefByte (v : Variant) (p : Nat) : Variant :=
  variantCondAssign v (VT_UI1.lor VT_BYREF) (VMember.pbVal p)
/-- Embeds `variant::operator=(short*)` (COM.h:698-706). -/
def variantAssignByrefShort (v : Variant) (p : Nat) : Variant :=
  variantCondAssign v (VT_I2.lor VT_BYREF) (VMember.piVal p)
/-- Embeds `variant::operator=(unsigned short*)` (COM.h:711-719). -/
def variantAssignByrefUShort (v : Variant) (p : Nat) : Variant :=
  variantCondAssign v (VT_UI2.lor VT_BYREF) (VMember.puiVal p)
/-- Embeds `variant::operator=(int*)` (COM.h:724-732). -/
def variantAssignByrefInt (v : Variant) (p : Nat) : Variant :=
  variantCondAssign v (VT_I4.lor VT_BYREF) (VMember.pintVal p)
/-- Embeds `variant::operator=(unsigned int*)` (COM.h:737-745). -/
def variantAssignByrefUInt (v : Variant) (p : Nat) : Variant :=
  variantCondAssign v (VT_UI4.lor VT_BYREF) (VMember.puintVal p)
/-- Embeds `variant::operator=(long*)` (COM.h:750-758). -/
def variantAssignByrefLong (v : Variant) (p : Nat) : Variant :=
  variantCondAssign v (VT_I4.lor VT_BYREF) (VMember.plVal p)
/-- Embeds `variant::operator=(unsigned long*)` (COM.h:763-771). -/
def variantAssignByrefULong (v : Variant) (p : Nat) : Variant :=
  variantCondAssign v (VT_UI4.lor VT_BYREF) (VMember.pulVal p)
/-- Embeds `variant::operator=(long long*)` (COM.h:776-784). -/
def variantAssignByrefLLong (v : Variant) (p : Nat) : Variant :=
  variantCondAssign v (VT_I8.lor VT_BYREF) (VMember.pllVal p)
/-- Embeds `variant::operator=(unsigned long long*)` (COM.h:789-797). -/
def variantAssignByrefULLong (v : Variant) (p : Nat) : Variant :=
  variantCondAssign v (VT_UI8.lor VT_BYREF) (VMember.pullVal p)
/-- Embeds `variant::operator=(float*)` (COM.h:802-810). -/
def variantAssignByrefFloat (v : Variant) (p : Nat) : Variant :=
  variantCondAssign v (VT_R4.lor VT_BYREF) (VMember.pfltVal p)
/-- Embeds `variant::operator=(double*)` (COM.h:815-823). -/
def variantAssignByrefDouble (v : Variant) (p : Nat) : Variant :=
  variantCondAssign v (VT_R8.lor VT_BYREF) (VMember.pdblVal p)

/-- Models `VariantCopy(this, &varSrc)` as used by `variant::variant(const
VARIANT&)` (COM.h:227-231, after `vt = VT_EMPTY`) and
`variant::operator=(const VARIANT&)` (COM.h:440-445, guarded by
`this != &varSrc`): the destination becomes a copy of the source (resource
duplication — a fresh `BSTR`, an `AddRef` — changes addresses but not the tag
or the written member kind, so the copy is abstracted to the source state). -/
def variantCopyInto (_dst src : Variant) : Variant := src

/-- Embeds `variant::variant(VARIANT&&)` (COM.h:236-240): a `memcpy` of the
entire `VARIANT` followed by `varSrc.vt = VT_EMPTY`.  Returns
(new object, moved-from object). -/
def variantMoveCtor (src : Variant) : Variant × Variant :=
  (src, { src with vt := VT_EMPTY })

/-- Embeds `variant::operator=(VARIANT&&)` (COM.h:450-458).  `isSelf` models
the `this != &varSrc` guard.  Otherwise `VariantClear(this)` runs first, then
the `memcpy` and `varSrc.vt = VT_EMPTY`.  Returns (destination after, source
after, the `vt` tags passed to `VariantClear` in order). -/
def variantMoveAssign (isSelf : Bool) (dst src : Variant) :
    Variant × Variant × List Nat :=
  if isSelf then (dst, src, [])
  else (src, { src with vt := VT_EMPTY }, [dst.vt])

/-- Helper: the shared conditional-clear assignment pattern always ends with
`vt` equal to the overload's tag and the overload's member written. -/
theorem variantCondAssign_result (v : Variant) (tag : Nat) (m : VMember) :
    (variantCondAssign v tag m).vt = tag ∧ (variantCondAssign v tag m).mem = m := by
  unfold variantCondAssign variantClear
  by_cases h : v.vt = tag <;> simp [h]

/-- Helper: if such an assignment writes a member matching its tag, the
resulting variant satisfies the tag discipline. -/
theorem tagMatches_condAssign (v : Variant) (tag : Nat) (m : VMember)
    (h : tagMatches tag m = true) :
    tagMatches (variantCondAssign v tag m).vt (variantCondAssign v tag m).mem = true := by
  rcases variantCondAssign_result v tag m with ⟨h1, h2⟩
  rw [h1, h2]
  exact h

/-- C7: the `winstd::variant` wrapper maintains the tagged-union discipline:
after every modelled constructor and assignment operator the `vt` tag matches
the union member that was written (assigning a `bool` sets `VT_BOOL` and
stores into `boolVal`, an `unsigned long` sets `VT_UI4` into `ulVal`, an OLE
string sets `VT_BSTR` into `bstrVal`, and so on for every overload), and the
default constructor produces the empty tag.  Constructors carrying a
`VARTYPE` argument are taken under their source `assert` precondition, and
`VariantCopy`-based copies under the discipline holding for the source. -/
theorem C7_variant_tag_discipline (b : Bool) (i hi : Int) (n lo a p vtSrc bits vtBase : Nat)
    (v src : Variant) :
    (variantInit.vt = VT_EMPTY ∧ tagMatches variantInit.vt variantInit.mem = true) ∧
    tagMatches (variantFromBool b).vt (variantFromBool b).mem = true ∧
    tagMatches (variantFromChar i).vt (variantFromChar i).mem = true ∧
    tagMatches (variantFromByte n).vt (variantFromByte n).mem = true ∧
    tagMatches (variantFromShort i).vt (variantFromShort i).mem = true ∧
    tagMatches (variantFromUShort n).vt (variantFromUShort n).mem = true ∧
    (vtSrc = VT_I4 ∨ vtSrc = VT_INT →
      tagMatches (variantFromInt i vtSrc).vt (variantFromInt i vtSrc).mem = true) ∧
    (vtSrc = VT_UI4 ∨ vtSrc = VT_UINT →
      tagMatches (variantFromUInt n vtSrc).vt (variantFromUInt n vtSrc).mem = true) ∧
    (vtSrc = VT_I4 ∨ vtSrc = VT_ERROR →
      tagMatches (variantFromLong i vtSrc).vt (variantFromLong i vtSrc).mem = true) ∧
    tagMatches (variantFromULong n).vt (variantFromULong n).mem = true ∧
    tagMatches (variantFromFloat bits).vt (variantFromFloat bits).mem = true ∧
    (vtSrc = VT_R8 ∨ vtSrc = VT_DATE →
      tagMatches (variantFromDouble bits vtSrc).vt (variantFromDouble bits vtSrc).mem = true) ∧
    tagMatches (variantFromLLong i).vt (variantFromLLong i).mem = true ∧
    tagMatches (variantFromULLong n).vt (variantFromULLong n).mem = true ∧
    tagMatches (variantFromCY hi lo).vt (variantFromCY hi lo).mem = true ∧
    tagMatches (variantFromDispatch p).vt (variantFromDispatch p).mem = true ∧
    tagMatches (variantFromUnknown p).vt (variantFromUnknown p).mem = true ∧
    tagMatches (variantFromOleStr a).vt (variantFromOleStr a).mem = true ∧
    tagMatches (variantAssignOleStr v a).vt (variantAssignOleStr v a).mem = true ∧
    tagMatches (variantAssignDispatch v p).vt (variantAssignDispatch v p).mem = true ∧
    tagMatches (variantAssignUnknown v p).vt (variantAssignUnknown v p).mem = true ∧
    tagMatches (variantAssignSafeArray v vtBase p).vt
      (variantAssignSafeArray v vtBase p).mem = true ∧
    tagMatches (variantAssignBool v b).vt (variantAssignBool v b).mem = true ∧
    tagMatches (variantAssignChar v i).vt (variantAssignChar v i).mem = true ∧
    tagMatches (variantAssignByte v n).vt (variantAssignByte v n).mem = true ∧
    tagMatches (variantAssignShort v i).vt (variantAssignShort v i).mem = true ∧
    tagMatches (variantAssignUShort v n).vt (variantAssignUShort v n).mem = true ∧
    tagMatches (variantAssignInt v i).vt (variantAssignInt v i).mem = true ∧
    tagMatches (variantAssignUInt v n).vt (variantAssignUInt v n).mem = true ∧
    tagMatches (variantAssignLong v i).vt (variantAssignLong v i).mem = true ∧
    tagMatches (variantAssignULong v n).vt (variantAssignULong v n).mem = true ∧
    tagMatches (variantAssignLLong v i).vt (variantAssignLLong v i).mem = true ∧
    tagMatches (variantAssignULLong v n).vt (variantAssignULLong v n).mem = true ∧
    tagMatches (variantAssignFloat v bits).vt (variantAssignFloat v bits).mem = true ∧
    tagMatches (variantAssignDouble v bits).vt (variantAssignDouble v bits).mem = true ∧
    tagMatches (variantAssignCY v hi lo).vt (variantAssignCY v hi lo).mem = true ∧
    tagMatches (variantAssignByrefByte v p).vt (variantAssignByrefByte v p).mem = true ∧
    tagMatches (variantAssignByrefShort v p).vt (variantAssignByrefShort v p).mem = true ∧
    tagMatches (variantAssignByrefUShort v p).vt (variantAssignByrefUShort v p).mem = true ∧
    tagMatches (variantAssignByrefInt v p).vt (variantAssignByrefInt v p).mem = true ∧
    tagMatches (variantAssignByrefUInt v p).vt (variantAssignByrefUInt v p).mem = true ∧
    tagMatches (variantAssignByrefLong v p).vt (variantAssignByrefLong v p).mem = true ∧
    tagMatches (variantAssignByrefULong v p).vt (variantAssignByrefULong v p).mem = true ∧
    tagMatches (variantAssignByrefLLong v p).vt (variantAssignByrefLLong v p).mem = true ∧
    tagMatches (variantAssignByrefULLong v p).vt (variantAssignByrefULLong v p).mem = true ∧
    tagMatches (variantAssignByrefFloat v p).vt (variantAssignByrefFloat v p).mem = true ∧
    tagMatches (variantAssignByrefDouble v p).vt (variantAssignByrefDouble v p).mem = true ∧
    (tagMatches src.vt src.mem = true →
      tagMatches (variantCopyInto v src).vt (variantCopyInto v src).mem = true) := by
  refine ⟨⟨rfl, rfl⟩, rfl, rfl, rfl, rfl, rfl, ?_, ?_, ?_, rfl, rfl, ?_, rfl, rfl, rfl,
    rfl, rfl, rfl, ?_, ?_, ?_, ?_, ?_, ?_, ?_, ?_, ?_, ?_, ?_, ?_, ?_, ?_, ?_, ?_, ?_,
    ?_, ?_, ?_, ?_, ?_, ?_, ?_, ?_, ?_, ?_, ?_, ?_, ?_⟩
  case _ => rintro (h | h) <;> subst h <;> rfl
  case _ => rintro (h | h) <;> subst h <;> rfl
  case _ => rintro (h | h) <;> subst h <;> rfl
  case _ => rintro (h | h) <;> subst h <;> rfl
  case _ =>
    show tagMatches (variantAssignOleStr v a).vt (variantAssignOleStr v a).mem = true
    rfl
  case _ => rfl
  case _ => rfl
  case _ =>
    show (vtBase ||| VT_ARRAY).testBit 13 = true
    have h13 : Nat.testBit VT_ARRAY 13 = true := by decide
    simp [Nat.testBit_lor, h13]
  all_goals first
    | exact tagMatches_condAssign _ _ _ rfl
    | exact fun h => h

/-- Witness for C7 at a concrete input. -/
theorem C7_variant_tag_discipline_witness :
    tagMatches (variantFromInt 42 VT_I4).vt (variantFromInt 42 VT_I4).mem = true :=
  ((C7_variant_tag_discipline true 42 0 0 0 0 0 VT_I4 0 0 variantInit
    variantInit).2.2.2.2.2.2.1) (Or.inl rfl)

/-- C9: after `variant` move construction or move assignment the moved-from
`VARIANT` carries the `VT_EMPTY` tag, the destination holds a bitwise copy of
the source's former contents, and move assignment passes the destination's
previous value to `VariantClear` before taking over the source's contents;
self move-assignment is a no-op. -/
theorem C9_variant_move_semantics (dst src : Variant) :
    (variantMoveCtor src).1 = src ∧
    (variantMoveCtor src).2.vt = VT_EMPTY ∧
    (variantMoveAssign false dst src).1 = src ∧
    (variantMoveAssign false dst src).2.1.vt = VT_EMPTY ∧
    (variantMoveAssign false dst src).2.2 = [dst.vt] ∧
    variantMoveAssign true dst dst = (dst, dst, []) := by
  unfold variantMoveCtor variantMoveAssign
  simp

/-! BSTR model for C8. -/

/-- Models a `BSTR` value: `none` is the `NULL` BSTR, `some s` a
length-prefixed wide string whose prefix records `s.length` characters;
the character data may contain embedded nulls. -/
abbrev BSTRV := Option (List Nat)

/-- Models the OLE `SysAllocStringLen(src, len)`: allocates a BSTR of exactly
`len` characters copied from the source buffer (embedded null characters
preserved), with the length prefix recording `len`.  Allocation failure is
not modelled. -/
def SysAllocStringLen (src : List Nat) (len : Nat) : BSTRV := some (src.take len)

/-- Models the OLE `SysStringLen`: the character count recorded in the length
prefix, `0` for a `NULL` BSTR. -/
def SysStringLen : BSTRV → Nat
  | none => 0
  | some s => s.length

/-- Embeds `bstr::bstr()` (COM.h:139-141): the null BSTR. -/
def bstrDefault : Handle BSTRV := ⟨none⟩

/-- Embeds `bstr::bstr(const std::basic_string<wchar_t>&)` (COM.h:167-170):
`SysAllocStringLen(src.c_str(), (UINT)src.length())`.  `c_str()` exposes the
buffer `src ++ [0]`; the `UINT` cast truncates the length to 32 bits. -/
def bstrFromBasicString (src : List Nat) : Handle BSTRV :=
  ⟨SysAllocStringLen (src ++ [0]) (src.length % 2 ^ 32)⟩

/-- Embeds `bstr::length` (COM.h:184-187): `SysStringLen(m_h)`. -/
def bstrLength (w : Handle BSTRV) : Nat := SysStringLen w.m_h

/-- C8: constructing a `winstd::bstr` from a wide-character string of length
`n` (any `n` a real string can have, i.e. below `2^32`) yields a BSTR whose
`length()` is exactly `n`, including when the source contains embedded null
characters (witnessed by the concrete string `[65, 0, 66]`); `length()` of a
default-constructed (null) ``bstr`` is `0`. -/
theorem C8_bstr_length_counts_embedded_nulls (src : List Nat)
    (hlen : src.length < 2 ^ 32) :
    bstrLength (bstrFromBasicString src) = src.length ∧
    bstrLength (bstrFromBasicString [65, 0, 66]) = 3 ∧
    bstrLength bstrDefault = 0 := by
  refine ⟨?_, by decide, rfl⟩
  have h2 : src.length % 2 ^ 32 = src.length := Nat.mod_eq_of_lt hlen
  simp only [bstrLength, bstrFromBasicString, SysAllocStringLen, SysStringLen, h2,
    List.length_take, List.length_append, List.length_singleton]
  omega

/-- Witness for C8 at a concrete input. -/
theorem C8_bstr_length_counts_embedded_nulls_witness :
    bstrLength (bstrFromBasicString [65, 0, 66]) = [65, 0, 66].length :=
  (C8_bstr_length_counts_embedded_nulls [65, 0, 66] (by norm_num)).1

/-! Model for C10: `event_rec` deep copy.  Heap allocation (`new unsigned
char[n]`) is modelled by a bump allocator: `nextAddr` is the next fresh
address, an allocation of `n` bytes returns the block `[nextAddr, nextAddr+n)`
and advances `nextAddr`; address `0` is `NULL` and is never allocated
(theorems assume `0 < nextAddr`). -/

/-- Embeds `sizeof(EVENT_HEADER_EXTENDED_DATA_ITEM)` (16 bytes on x64). -/
def EXT_ITEM_SIZE : Nat := 16

/-- State of an `EVENT_HEADER_EXTENDED_DATA_ITEM`: the header fields copied
by the bulk `memcpy` (summarised as `ExtType`), the `DataSize`, the `DataPtr`
address, and the bytes stored at `DataPtr` (of which the first `DataSize` are
the item's data). -/
structure ExtItem where
  ExtType : Nat
  DataSize : Nat
  DataPtr : Nat
  content : List Nat
deriving DecidableEq

/-- State of an `EVENT_RECORD` (and of the `event_rec` wrapper,
ETW.h:296-486) restricted to the fields the copy logic touches:
`ExtendedDataCount`, the `ExtendedData` array address and the items stored
there, `UserDataLength`, the `UserData` address and the bytes stored there. -/
structure EventRec where
  ExtendedDataCount : Nat
  ExtendedData : Nat
  extItems : List ExtItem
  UserDataLength : Nat
  UserData : Nat
  userBytes : List Nat
deriving DecidableEq

/-- Embeds the data-copying loop of `event_rec::set_extended_data_internal`
(ETW.h:450-458): `ptr` starts at the end of the descriptor area; each item
with non-zero `DataSize` has its data copied to `ptr` and its `DataPtr`
redirected there, and `ptr` advances; an item with zero `DataSize` gets
`DataPtr = NULL`. -/
def copyItems : List ExtItem → Nat → List ExtItem
  | [], _ => []
  | d :: rest, p =>
    if d.DataSize ≠ 0 then
      ⟨d.ExtType, d.DataSize, p, d.content.take d.DataSize⟩ ::
        copyItems rest (p + d.DataSize)
    else
      ⟨d.ExtType, d.DataSize, 0, []⟩ :: copyItems rest p

/-- Embeds `event_rec::set_extended_data_internal` (ETW.h:433-463).  For a
non-zero `count` it sums the first `count` items' `DataSize`, allocates one
block of `sizeof(EVENT_HEADER_EXTENDED_DATA_ITEM)*count + data_size` bytes,
bulk-copies the descriptors and then the per-item data; for `count = 0`,
`ExtendedData = NULL`.  Returns (`ExtendedData` address, copied items, new
`nextAddr`). -/
def setExtendedDataInternal (nextAddr count : Nat) (data : List ExtItem) :
    Nat × List ExtItem × Nat :=
  if count ≠ 0 then
    let dataSize := ((data.take count).map (fun d => d.DataSize)).sum
    (nextAddr, copyItems (data.take count) (nextAddr + EXT_ITEM_SIZE * count),
      nextAddr + EXT_ITEM_SIZE * count + dataSize)
  else (0, [], nextAddr)

/-- Embeds `event_rec::set_user_data_internal` (ETW.h:471-485): for non-zero
`size`, allocates `size` bytes and copies the user data; otherwise
`UserData = NULL`.  Returns (`UserData` address, copied bytes, new
`nextAddr`). -/
def setUserDataInternal (nextAddr size : Nat) (data : List Nat) :
    Nat × List Nat × Nat :=
  if size ≠ 0 then (nextAddr, data.take size, nextAddr + size)
  else (0, [], nextAddr)

/-- Embeds `event_rec::event_rec(const event_rec&)` (ETW.h:312-316) — the
same path as the copy from a plain `EVENT_RECORD` (ETW.h:323-327) and the
copy assignments (ETW.h:356-381): a member-wise base copy followed by
`set_extended_data_internal(other.ExtendedDataCount, other.ExtendedData)` and
`set_user_data_internal(other.UserDataLength, other.UserData)`.  Returns
(the copy, new `nextAddr`). -/
def eventRecCopy (nextAddr : Nat) (other : EventRec) : EventRec × Nat :=
  let ed := setExtendedDataInternal nextAddr other.ExtendedDataCount other.extItems
  let ud := setUserDataInternal ed.2.2 other.UserDataLength other.userBytes
  (⟨other.ExtendedDataCount, ed.1, ed.2.1, other.UserDataLength, ud.1, ud.2.1⟩, ud.2.2)

/-- Specification predicate for one copied extended-data item: the descriptor
header fields are preserved, the copied content equals the source item's
first `DataSize` bytes, and the new `DataPtr` is `NULL` when `DataSize` is
zero and otherwise lies (with its data) inside the address range
`[lo, hi)` of the copy's own data area. -/
def itemCopied (lo hi : Nat) (d c : ExtItem) : Prop :=
  c.ExtType = d.ExtType ∧ c.DataSize = d.DataSize ∧
  c.content = d.content.take d.DataSize ∧
  (d.DataSize = 0 → c.DataPtr = 0) ∧
  (d.DataSize ≠ 0 → lo ≤ c.DataPtr ∧ c.DataPtr + d.DataSize ≤ hi)

/-- Helper: `itemCopied` is monotone in the admissible address range. -/
theorem itemCopied_mono {lo hi lo' hi' : Nat} {d c : ExtItem}
    (h : itemCopied lo hi d c) (hlo : lo' ≤ lo) (hhi : hi ≤ hi') :
    itemCopied lo' hi' d c := by
  obtain ⟨h1, h2, h3, h4, h5⟩ := h
  refine ⟨h1, h2, h3, h4, fun hn => ?_⟩
  obtain ⟨ha, hb⟩ := h5 hn
  exact ⟨le_trans hlo ha, le_trans hb hhi⟩

/-- Helper: the copy loop satisfies `itemCopied` item-wise, with every copied
data pointer confined to `[p, p + total data size)`. -/
theorem copyItems_spec (data : List ExtItem) (p : Nat) :
    List.Forall₂ (itemCopied p (p + (data.map (fun d => d.DataSize)).sum))
      data (copyItems data p) := by
  induction data generalizing p with
  | nil => exact List.Forall₂.nil
  | cons d rest ih =>
    unfold copyItems
    by_cases hd : d.DataSize = 0
    · simp only [hd, ne_eq, not_true_eq_false, if_false]
      refine List.Forall₂.cons ?_ ?_
      · exact ⟨rfl, by simp [hd], by simp [hd], fun _ => rfl, fun hn => absurd hd hn⟩
      · refine (ih p).imp (fun a b hab => itemCopied_mono hab le_rfl ?_)
        simp [hd]
    · simp only [ne_eq, hd, not_false_eq_true, if_true]
      refine List.Forall₂.cons ?_ ?_
      · refine ⟨rfl, rfl, rfl, fun h0 => absurd h0 hd, fun _ => ⟨le_rfl, ?_⟩⟩
        simp only [List.map_cons, List.sum_cons]
        omega
      · refine (ih (p + d.DataSize)).imp (fun a b hab => itemCopied_mono hab ?_ ?_)
        · omega
        · simp only [List.map_cons, List.sum_cons]
          omega

/-- C10: copying an `event_rec` produces a deep, independent copy.  With a
bump allocator at `nextAddr` (all of the source's addresses lying below it,
`NULL = 0 < nextAddr`): the copy's `ExtendedData` array and `UserData` block
are freshly allocated (distinct from every source address and from `NULL`),
each copied item's descriptor and data are preserved and its `DataPtr` points
into the copy's own data area — or is `NULL` when that item's `DataSize` is
zero — and when `ExtendedDataCount` or `UserDataLength` is zero the
corresponding pointer is set to `NULL`. -/
theorem C10_eventRec_deep_copy (nextAddr : Nat) (other : EventRec)
    (h0 : 0 < nextAddr)
    (hED : other.ExtendedData < nextAddr)
    (hUD : other.UserData < nextAddr)
    (hIt : ∀ d ∈ other.extItems, d.DataPtr < nextAddr) :
    (eventRecCopy nextAddr other).1.ExtendedDataCount = other.ExtendedDataCount ∧
    (eventRecCopy nextAddr other).1.UserDataLength = other.UserDataLength ∧
    (other.ExtendedDataCount = 0 → (eventRecCopy nextAddr other).1.ExtendedData = 0) ∧
    (other.ExtendedDataCount ≠ 0 →
      nextAddr ≤ (eventRecCopy nextAddr other).1.ExtendedData ∧
      (eventRecCopy nextAddr other).1.ExtendedData ≠ other.ExtendedData ∧
      (eventRecCopy nextAddr other).1.ExtendedData ≠ 0 ∧
      ∀ d ∈ other.extItems, (eventRecCopy nextAddr other).1.ExtendedData ≠ d.DataPtr) ∧
    (other.UserDataLength = 0 → (eventRecCopy nextAddr other).1.UserData = 0) ∧
    (other.UserDataLength ≠ 0 →
      nextAddr ≤ (eventRecCopy nextAddr other).1.UserData ∧
      (eventRecCopy nextAddr other).1.UserData ≠ other.UserData ∧
      (eventRecCopy nextAddr other).1.UserData ≠ 0 ∧
      (eventRecCopy nextAddr other).1.userBytes =
        other.userBytes.take other.UserDataLength) ∧
    List.Forall₂
      (itemCopied
        (nextAddr + EXT_ITEM_SIZE * other.ExtendedDataCount)
        (nextAddr + EXT_ITEM_SIZE * other.ExtendedDataCount +
          (((other.extItems.take other.ExtendedDataCount).map
            (fun d => d.DataSize)).sum))
        )
      (other.extItems.take other.ExtendedDataCount)
      (eventRecCopy nextAddr other).1.extItems := by
  have hproj1 : (eventRecCopy nextAddr other).1.ExtendedData =
      (setExtendedDataInternal nextAddr other.ExtendedDataCount other.extItems).1 := rfl
  have hproj2 : (eventRecCopy nextAddr other).1.extItems =
      (setExtendedDataInternal nextAddr other.ExtendedDataCount other.extItems).2.1 := rfl
  have hproj3 : (eventRecCopy nextAddr other).1.UserData =
      (setUserDataInternal
        (setExtendedDataInternal nextAddr other.ExtendedDataCount other.extItems).2.2
        other.UserDataLength other.userBytes).1 := rfl
  have hproj4 : (eventRecCopy nextAddr other).1.userBytes =
      (setUserDataInternal
        (setExtendedDataInternal nextAddr other.ExtendedDataCount other.extItems).2.2
        other.UserDataLength other.userBytes).2.1 := rfl
  have hnaE : nextAddr ≤
      (setExtendedDataInternal nextAddr other.ExtendedDataCount other.extItems).2.2 := by
    unfold setExtendedDataInternal
    by_cases hc : other.ExtendedDataCount = 0 <;> simp [hc] <;> omega
  refine ⟨rfl, rfl, ?_, ?_, ?_, ?_, ?_⟩
  · intro h
    rw [hproj1]
    simp [setExtendedDataInternal, h]
  · intro h
    have he1 : (setExtendedDataInternal nextAddr other.ExtendedDataCount
        other.extItems).1 = nextAddr := by
      simp [setExtendedDataInternal, h]
    rw [hproj1, he1]
    refine ⟨le_rfl, by omega, by omega, fun d hd => ?_⟩
    have := hIt d hd
    omega
  · intro h
    rw [hproj3]
    simp [setUserDataInternal, h]
  · intro h
    have he2 : (setUserDataInternal
        (setExtendedDataInternal nextAddr other.ExtendedDataCount other.extItems).2.2
        other.UserDataLength other.userBytes).1 =
        (setExtendedDataInternal nextAddr other.ExtendedDataCount other.extItems).2.2 := by
      simp [setUserDataInternal, h]
    have he3 : (setUserDataInternal
        (setExtendedDataInternal nextAddr other.ExtendedDataCount other.extItems).2.2
        other.UserDataLength other.userBytes).2.1 =
        other.userBytes.take other.UserDataLength := by
      simp [setUserDataInternal, h]
    rw [hproj3, hproj4, he2, he3]
    exact ⟨hnaE, by omega, by omega, rfl⟩
  · rw [hproj2]
    by_cases hc : other.ExtendedDataCount = 0
    · simp [setExtendedDataInternal, hc]
    · have he4 : (setExtendedDataInternal nextAddr other.ExtendedDataCount
          other.extItems).2.1 =
          copyItems (other.extItems.take other.ExtendedDataCount)
            (nextAddr + EXT_ITEM_SIZE * other.ExtendedDataCount) := by
        simp [setExtendedDataInternal, hc]
      rw [he4]
      exact copyItems_spec _ _

/-- Witness for C10 at a concrete input: a record with two extended-data
items (one of them with zero `DataSize`) and two bytes of user data, copied
with the allocator at address `100`. -/
theorem C10_eventRec_deep_copy_witness :
    (eventRecCopy 100 ⟨2, 40, [⟨7, 2, 50, [10, 11]⟩, ⟨8, 0, 0, []⟩], 2, 60,
      [20, 21]⟩).1.ExtendedData = 100 ∧
    (eventRecCopy 100 ⟨2, 40, [⟨7, 2, 50, [10, 11]⟩, ⟨8, 0, 0, []⟩], 2, 60,
      [20, 21]⟩).1.UserData ≠ 60 := by
  have h := C10_eventRec_deep_copy 100
    ⟨2, 40, [⟨7, 2, 50, [10, 11]⟩, ⟨8, 0, 0, []⟩], 2, 60, [20, 21]⟩
    (by decide) (by decide) (by decide) (by decide)
  exact ⟨le_antisymm (by decide) (h.2.2.2.1 (by decide)).1,
    (h.2.2.2.2.2.1 (by decide)).2.1⟩

end WinStd
